import Mathlib

/-!
Verification of the `POST /api/treatment` request handler of
`src/server/server.js` (an Express endpoint that relays a plant-disease name
to an external text-generation capability and forwards the structured JSON
result).

The handler is embedded shallowly as a total Lean function:

* `JSVal` models JavaScript/JSON values as far as the handler inspects them
  (numbers are modelled as integers; the handler never does arithmetic).
* The request body is the field list of the parsed JSON object produced by the
  `express.json()` middleware (which yields an object, by default `\x7b\x7d`,
  for every request reaching the handler).
* The single external call `client.models.generateContent(...)` is modelled by
  an environment value `ExternalEnv.genResult`: either the resolved response
  object or a rejection carrying the message of the thrown error.
* The JavaScript builtin `JSON.parse` is modelled by the environment function
  `ExternalEnv.jsonParse`: `.ok v` when parsing returns the value `v`, and
  `.error m` when it throws a SyntaxError whose `message` is `m`.
* Observable effects are collected in the result: the single HTTP response,
  the list of `console.log` / `console.error` lines, and the generation
  request sent to the external capability (`none` when it is never invoked).
-/

/-- JavaScript values, as far as the handler inspects them. -/
inductive JSVal where
  | undef
  | null
  | bool (b : Bool)
  | num (n : Int)
  | str (s : String)
  | arr (elems : List JSVal)
  | obj (fields : List (String × JSVal))

mutual

/-- JavaScript string conversion, as performed by the template literal that
builds the prompt: `String(v)`. Arrays stringify as their elements joined by
commas; plain objects stringify as `[object Object]`. -/
def jsToString : JSVal → String
  | .undef => "undefined"
  | .null => "null"
  | .bool b => if b then "true" else "false"
  | .num n => toString n
  | .str s => s
  | .arr elems => String.intercalate "," (jsElemStrings elems)
  | .obj _ => "[object Object]"

/-- Element stringification used by `Array.prototype.join`: `null` and
`undefined` elements become the empty string. -/
def jsElemStrings : List JSVal → List String
  | [] => []
  | .undef :: rest => "" :: jsElemStrings rest
  | .null :: rest => "" :: jsElemStrings rest
  | v :: rest => jsToString v :: jsElemStrings rest

end

/-- JavaScript truthiness, used by the `if (!disease)` validation check. -/
def JSVal.isTruthy : JSVal → Bool
  | .undef => false
  | .null => false
  | .bool b => b
  | .num n => n != 0
  | .str s => !s.isEmpty
  | .arr _ => true
  | .obj _ => true

/-- Property lookup on a JSON object given as a field list. -/
def lookupField : List (String × JSVal) → String → Option JSVal
  | [], _ => none
  | (k, v) :: rest, key => if k = key then some v else lookupField rest key

/-- Property lookup through a general value: `none` on non-objects. -/
def dataField (v : JSVal) (key : String) : Option JSVal :=
  match v with
  | .obj fields => lookupField fields key
  | _ => none

/-- Whether a value is a JSON string. -/
def isStringVal : JSVal → Bool
  | .str _ => true
  | _ => false

/-- The structured-output response schema language used by the source: each
schema node carries a `type` (`OBJECT`, `STRING` or `ARRAY`), an optional
`description`, `items` for arrays, and `properties` and `required` for
objects. These are the only keywords appearing in `treatmentSchema`. -/
inductive Schema where
  | strSchema (description : Option String)
  | arrSchema (description : Option String) (items : Schema)
  | objSchema (properties : List (String × Schema)) (required : List String)

/-- The `properties` list of an object schema. -/
def schemaProperties : Schema → List (String × Schema)
  | .objSchema props _ => props
  | _ => []

/-- The `required` list of an object schema. -/
def schemaRequired : Schema → List String
  | .objSchema _ req => req
  | _ => []

/-- Lookup of a property schema by name. -/
def findProp : List (String × Schema) → String → Option Schema
  | [], _ => none
  | (k, s) :: rest, key => if k = key then some s else findProp rest key

mutual

/-- Standard acceptance semantics of the schema keywords present in the
source (`type`, `items`, `properties`, `required`): a string schema accepts
strings; an array schema accepts arrays whose elements its `items` schema
accepts; an object schema accepts objects that have every `required` key and
whose fields listed under `properties` match their property schema. The
`description` field is documentation and constrains nothing. -/
def schemaAccepts : Schema → JSVal → Bool
  | .strSchema _, .str _ => true
  | .strSchema _, _ => false
  | .arrSchema _ item, .arr elems => schemaAcceptsList item elems
  | .arrSchema _ _, _ => false
  | .objSchema props req, .obj fields =>
      req.all (fun k => fields.any (fun kv => kv.1 == k)) &&
      schemaAcceptsFields props fields
  | .objSchema _ _, _ => false

/-- Every element of the list is accepted by the item schema. -/
def schemaAcceptsList : Schema → List JSVal → Bool
  | _, [] => true
  | item, v :: rest => schemaAccepts item v && schemaAcceptsList item rest

/-- Every field whose key appears under `properties` matches its property
schema; unknown fields are unconstrained. -/
def schemaAcceptsFields : List (String × Schema) → List (String × JSVal) → Bool
  | _, [] => true
  | props, (k, v) :: rest =>
      (match findProp props k with
       | some s => schemaAccepts s v
       | none => true) &&
      schemaAcceptsFields props rest

end

/-- The fixed response schema `treatmentSchema` of the source: an OBJECT with
three STRING properties and one ARRAY-of-STRING property, all four required. -/
def treatmentSchema : Schema :=
  .objSchema
    [("organic", .strSchema (some "Organic treatment methods (1–2 sentences).")),
     ("biological", .strSchema (some "Biological control methods (1–2 sentences).")),
     ("chemical", .strSchema (some "Chemical treatment methods (1–2 sentences).")),
     ("prevention", .arrSchema (some "A list of five distinct prevention measures.")
        (.strSchema none))]
    ["organic", "biological", "chemical", "prevention"]

/-- One entry of `candidate.safetyRatings`; only its `blocked` flag is read
(a missing flag is modelled as `false`, matching its truthiness). -/
structure SafetyRating where
  blocked : Bool

/-- One entry of `content.parts`; only its optional `text` is read. -/
structure ContentPart where
  text : Option String

/-- The `content` object of a candidate. -/
structure Content where
  parts : List ContentPart

/-- One generation candidate, with optional content and safety ratings. An
absent `safetyRatings` array is modelled as the empty list, which the
optional-chaining reads of the source do not distinguish from it. -/
structure Candidate where
  content : Option Content
  safetyRatings : List SafetyRating

/-- The resolved value of the external generation call; an absent
`candidates` array is likewise modelled as the empty list. -/
structure GenResponse where
  candidates : List Candidate

/-- Outcome of awaiting `client.models.generateContent`: a resolved response,
or a rejection carrying the `message` of the thrown error. -/
inductive GenOutcome where
  | resolved (resp : GenResponse)
  | rejected (message : String)

/-- The `config` object of the generation request. -/
structure GenConfig where
  temperature : ℚ
  responseMimeType : String
  responseSchema : Schema

/-- The argument object passed to `client.models.generateContent`. -/
structure GenRequest where
  model : String
  contents : String
  config : GenConfig

/-- Environment of one handler run: the settled outcome of the single
external generation call, and the behaviour of the `JSON.parse` builtin. -/
structure ExternalEnv where
  genResult : GenOutcome
  jsonParse : String → Except String JSVal

/-- The HTTP response: a status code and a JSON object body (every body the
handler sends is an object literal). -/
structure HttpResponse where
  status : Nat
  body : List (String × JSVal)

/-- A console line: `console.log msg`, or `console.error tag msg` with the
two arguments the source passes. -/
inductive LogEvent where
  | consoleLog (message : String)
  | consoleError (tag : String) (message : String)

/-- Everything observable about one handler run: the single HTTP response,
the console lines in order, and the generation request sent to the external
capability (`none` when the call is never made). -/
structure HandlerResult where
  response : HttpResponse
  logs : List LogEvent
  genCall : Option GenRequest

/-- Text before the interpolated disease value in the prompt template
literal (including its leading newline and indentation). -/
def promptHead : String :=
  "\n    You are a professional plant pathologist AI. Provide the comprehensive treatment and prevention information for the plant disease \""

/-- Text after the interpolated disease value in the prompt template
literal (closing quote, newline, trailing indentation). -/
def promptTail : String := "\".\n  "

/-- The prompt built by the template literal. -/
def mkPrompt (disease : JSVal) : String :=
  promptHead ++ jsToString disease ++ promptTail

/-- The read `candidate?.content?.parts?.[0]?.text` on the first candidate:
optional chaining yields `undefined` (`none`) when any link is missing. -/
def extractJsonString (resp : GenResponse) : Option String :=
  ((resp.candidates.head?.bind Candidate.content).bind
      (fun c => c.parts.head?)).bind ContentPart.text

/-- Truthiness test `!jsonString` on the extracted text: falsy when the
chain produced `undefined` or the text is the empty string. -/
def jsonStringFalsy : Option String → Bool
  | none => true
  | some s => s.isEmpty

/-- The read `candidate?.safetyRatings?.[0]?.blocked`, as a truthiness
test. -/
def safetyBlockedFlag (candidate : Option Candidate) : Bool :=
  match candidate.bind (fun c => c.safetyRatings.head?) with
  | some r => r.blocked
  | none => false

/-- The destructuring `const (disease) = req.body`: the `disease` field of
the parsed body object, `undefined` when absent. -/
def requestDisease (reqBody : List (String × JSVal)) : JSVal :=
  (lookupField reqBody "disease").getD JSVal.undef

/-- The `POST /api/treatment` handler of `src/server/server.js`, as a total
function from the environment and the parsed request-body fields to its
observable behaviour. It mirrors the source line by line: destructure
`disease`, reject falsy values with 400 before any external call, otherwise
build the prompt and the generation request, and translate the four remaining
outcomes (rejection, missing text, JSON.parse failure, success) into the
corresponding response, logs included. -/
def apiTreatmentHandler (env : ExternalEnv) (reqBody : List (String × JSVal)) :
    HandlerResult :=
  let disease := requestDisease reqBody
  if disease.isTruthy = false then
    { response := { status := 400,
                    body := [("error", .str "Disease name is required.")] },
      logs := [],
      genCall := none }
  else
    let prompt := mkPrompt disease
    let genRequest : GenRequest :=
      { model := "gemini-2.5-flash",
        contents := prompt,
        config := { temperature := (0.3 : ℚ),
                    responseMimeType := "application/json",
                    responseSchema := treatmentSchema } }
    match env.genResult with
    | .rejected message =>
        { response := { status := 500,
                        body := [("error",
                                  .str "Failed to process request due to an internal API error."),
                                 ("details", .str message)] },
          logs := [.consoleError "Gemini API Internal Error:" message],
          genCall := some genRequest }
    | .resolved resp =>
        let candidate := resp.candidates.head?
        let jsonString := extractJsonString resp
        if jsonStringFalsy jsonString then
          let blockReason :=
            if safetyBlockedFlag candidate then "Response blocked by safety settings."
            else "Empty response or no text part found."
          { response := { status := 500,
                          body := [("error", .str "Failed to generate treatment data."),
                                   ("details", .str blockReason)] },
            logs := [.consoleError "Gemini API Error:" blockReason],
            genCall := some genRequest }
        else
          match env.jsonParse (jsonString.getD "") with
          | .error message =>
              { response := { status := 500,
                              body := [("error",
                                        .str "Failed to process request due to an internal API error."),
                                       ("details", .str message)] },
                logs := [.consoleError "Gemini API Internal Error:" message],
                genCall := some genRequest }
          | .ok data =>
              { response := { status := 200,
                              body := [("disease", disease), ("data", data)] },
                logs := [.consoleLog
                          ("Successfully generated structured data for \"" ++
                            jsToString disease ++ "\"")],
                genCall := some genRequest }

/-- The looked-up field is present and holds a string. -/
def isStringField (o : Option JSVal) : Bool :=
  match o with
  | some (.str _) => true
  | _ => false

/-- The looked-up field is present and holds an array of exactly five
strings. -/
def isPrevention5 (o : Option JSVal) : Bool :=
  match o with
  | some (.arr elems) => elems.length == 5 && elems.all isStringVal
  | _ => false

/-- A TreatmentResult value conformant to the data model of the spec: all
four keys present, the three guidance fields strings, and `prevention` an
array of exactly five strings. -/
def conformantTreatment (v : JSVal) : Bool :=
  isStringField (dataField v "organic") &&
  isStringField (dataField v "biological") &&
  isStringField (dataField v "chemical") &&
  isPrevention5 (dataField v "prevention")

/-- The generation request the handler builds for a given request body. -/
def treatmentGenRequest (reqBody : List (String × JSVal)) : GenRequest :=
  { model := "gemini-2.5-flash",
    contents := mkPrompt (requestDisease reqBody),
    config := { temperature := (0.3 : ℚ),
                responseMimeType := "application/json",
                responseSchema := treatmentSchema } }

/-- The observable outcome on the invalid-input path. -/
def invalidInputResult : HandlerResult :=
  { response := { status := 400,
                  body := [("error", .str "Disease name is required.")] },
    logs := [],
    genCall := none }

/-- The observable outcome when the external call rejects. -/
def rejectedResult (reqBody : List (String × JSVal)) (message : String) :
    HandlerResult :=
  { response := { status := 500,
                  body := [("error",
                            .str "Failed to process request due to an internal API error."),
                           ("details", .str message)] },
    logs := [.consoleError "Gemini API Internal Error:" message],
    genCall := some (treatmentGenRequest reqBody) }

/-- The observable outcome when the resolved response has no text part;
`blocked` is the value of the safety-block read. -/
def noTextResult (reqBody : List (String × JSVal)) (blocked : Bool) :
    HandlerResult :=
  { response := { status := 500,
                  body := [("error", .str "Failed to generate treatment data."),
                           ("details",
                            .str (if blocked then "Response blocked by safety settings."
                                  else "Empty response or no text part found."))] },
    logs := [.consoleError "Gemini API Error:"
              (if blocked then "Response blocked by safety settings."
               else "Empty response or no text part found.")],
    genCall := some (treatmentGenRequest reqBody) }

/-- The observable outcome when `JSON.parse` throws on the text payload. -/
def parseFailResult (reqBody : List (String × JSVal)) (message : String) :
    HandlerResult :=
  { response := { status := 500,
                  body := [("error",
                            .str "Failed to process request due to an internal API error."),
                           ("details", .str message)] },
    logs := [.consoleError "Gemini API Internal Error:" message],
    genCall := some (treatmentGenRequest reqBody) }

/-- The observable outcome on the success path: `v` is the parsed payload. -/
def successResult (reqBody : List (String × JSVal)) (v : JSVal) :
    HandlerResult :=
  { response := { status := 200,
                  body := [("disease", requestDisease reqBody), ("data", v)] },
    logs := [.consoleLog
              ("Successfully generated structured data for \"" ++
                jsToString (requestDisease reqBody) ++ "\"")],
    genCall := some (treatmentGenRequest reqBody) }

/-- Branch equation: falsy `disease` takes the 400 path. -/
theorem apiTreatmentHandler_invalid (env : ExternalEnv)
    (reqBody : List (String × JSVal))
    (hd : (requestDisease reqBody).isTruthy = false) :
    apiTreatmentHandler env reqBody = invalidInputResult := by
  simp [apiTreatmentHandler, hd, invalidInputResult]

/-- Branch equation: truthy `disease` and a rejected external call take the
catch path. -/
theorem apiTreatmentHandler_rejected (env : ExternalEnv)
    (reqBody : List (String × JSVal)) (message : String)
    (hd : (requestDisease reqBody).isTruthy = true)
    (hg : env.genResult = GenOutcome.rejected message) :
    apiTreatmentHandler env reqBody = rejectedResult reqBody message := by
  simp [apiTreatmentHandler, hd, hg, rejectedResult, treatmentGenRequest, mkPrompt]

/-- Branch equation: truthy `disease`, resolved call, falsy extracted text. -/
theorem apiTreatmentHandler_noText (env : ExternalEnv)
    (reqBody : List (String × JSVal)) (resp : GenResponse)
    (hd : (requestDisease reqBody).isTruthy = true)
    (hg : env.genResult = GenOutcome.resolved resp)
    (ht : jsonStringFalsy (extractJsonString resp) = true) :
    apiTreatmentHandler env reqBody =
      noTextResult reqBody (safetyBlockedFlag resp.candidates.head?) := by
  simp [apiTreatmentHandler, hd, hg, ht, noTextResult, treatmentGenRequest, mkPrompt]

/-- Branch equation: truthy `disease`, resolved call, non-empty text on
which `JSON.parse` throws. -/
theorem apiTreatmentHandler_parseFail (env : ExternalEnv)
    (reqBody : List (String × JSVal)) (resp : GenResponse) (s message : String)
    (hd : (requestDisease reqBody).isTruthy = true)
    (hg : env.genResult = GenOutcome.resolved resp)
    (ht : extractJsonString resp = some s)
    (hne : s.isEmpty = false)
    (hp : env.jsonParse s = Except.error message) :
    apiTreatmentHandler env reqBody = parseFailResult reqBody message := by
  simp [apiTreatmentHandler, hd, hg, ht, jsonStringFalsy, hne, hp, parseFailResult,
    treatmentGenRequest, mkPrompt]

/-- Branch equation: truthy `disease`, resolved call, non-empty text that
parses to `v`. -/
theorem apiTreatmentHandler_success (env : ExternalEnv)
    (reqBody : List (String × JSVal)) (resp : GenResponse) (s : String) (v : JSVal)
    (hd : (requestDisease reqBody).isTruthy = true)
    (hg : env.genResult = GenOutcome.resolved resp)
    (ht : extractJsonString resp = some s)
    (hne : s.isEmpty = false)
    (hp : env.jsonParse s = Except.ok v) :
    apiTreatmentHandler env reqBody = successResult reqBody v := by
  simp [apiTreatmentHandler, hd, hg, ht, jsonStringFalsy, hne, hp, successResult,
    treatmentGenRequest, mkPrompt]

/-- Exhaustive case analysis of one handler run: exactly one of the five
paths is taken, each with its defining conditions. -/
theorem apiTreatmentHandler_run (env : ExternalEnv)
    (reqBody : List (String × JSVal)) :
    ((requestDisease reqBody).isTruthy = false ∧
       apiTreatmentHandler env reqBody = invalidInputResult) ∨
    ((requestDisease reqBody).isTruthy = true ∧
      ((∃ message, env.genResult = GenOutcome.rejected message ∧
          apiTreatmentHandler env reqBody = rejectedResult reqBody message) ∨
       (∃ resp, env.genResult = GenOutcome.resolved resp ∧
          jsonStringFalsy (extractJsonString resp) = true ∧
          apiTreatmentHandler env reqBody =
            noTextResult reqBody (safetyBlockedFlag resp.candidates.head?)) ∨
       (∃ resp s message, env.genResult = GenOutcome.resolved resp ∧
          extractJsonString resp = some s ∧ s.isEmpty = false ∧
          env.jsonParse s = Except.error message ∧
          apiTreatmentHandler env reqBody = parseFailResult reqBody message) ∨
       (∃ resp s v, env.genResult = GenOutcome.resolved resp ∧
          extractJsonString resp = some s ∧ s.isEmpty = false ∧
          env.jsonParse s = Except.ok v ∧
          apiTreatmentHandler env reqBody = successResult reqBody v))) := by
  by_cases hd : (requestDisease reqBody).isTruthy = false
  · exact Or.inl ⟨hd, apiTreatmentHandler_invalid env reqBody hd⟩
  · have hd1 : (requestDisease reqBody).isTruthy = true := by
      revert hd
      cases (requestDisease reqBody).isTruthy <;> simp
    refine Or.inr ⟨hd1, ?_⟩
    cases hg : env.genResult with
    | rejected message =>
        exact Or.inl ⟨message, rfl,
          apiTreatmentHandler_rejected env reqBody message hd1 hg⟩
    | resolved resp =>
        by_cases hfal : jsonStringFalsy (extractJsonString resp) = true
        · exact Or.inr (Or.inl ⟨resp, rfl, hfal,
            apiTreatmentHandler_noText env reqBody resp hd1 hg hfal⟩)
        · cases ht : extractJsonString resp with
          | none => exact absurd (by rw [ht]; rfl) hfal
          | some s =>
              have hne : s.isEmpty = false := by
                rw [ht] at hfal
                simpa [jsonStringFalsy] using hfal
              cases hp : env.jsonParse s with
              | error message =>
                  exact Or.inr (Or.inr (Or.inl ⟨resp, s, message, rfl, ht, hne, hp,
                    apiTreatmentHandler_parseFail env reqBody resp s message hd1 hg ht hne hp⟩))
              | ok v =>
                  exact Or.inr (Or.inr (Or.inr ⟨resp, s, v, rfl, ht, hne, hp,
                    apiTreatmentHandler_success env reqBody resp s v hd1 hg ht hne hp⟩))

/-- Elimination form of `isStringField`. -/
theorem isStringField_spec : ∀ (o : Option JSVal), isStringField o = true →
    ∃ s, o = some (JSVal.str s)
  | some (.str s), _ => ⟨s, rfl⟩
  | none, h => absurd h (by simp [isStringField])
  | some .undef, h => absurd h (by simp [isStringField])
  | some .null, h => absurd h (by simp [isStringField])
  | some (.bool _), h => absurd h (by simp [isStringField])
  | some (.num _), h => absurd h (by simp [isStringField])
  | some (.arr _), h => absurd h (by simp [isStringField])
  | some (.obj _), h => absurd h (by simp [isStringField])

/-- Elimination form of `isPrevention5`. -/
theorem isPrevention5_spec : ∀ (o : Option JSVal), isPrevention5 o = true →
    ∃ elems, o = some (JSVal.arr elems) ∧ elems.length = 5 ∧
      ∀ x ∈ elems, isStringVal x = true
  | some (.arr elems), h => by
      simp only [isPrevention5, Bool.and_eq_true, beq_iff_eq] at h
      refine ⟨elems, rfl, h.1, ?_⟩
      intro x hx
      have hall := h.2
      rw [List.all_eq_true] at hall
      exact hall x hx
  | none, h => absurd h (by simp [isPrevention5])
  | some .undef, h => absurd h (by simp [isPrevention5])
  | some .null, h => absurd h (by simp [isPrevention5])
  | some (.bool _), h => absurd h (by simp [isPrevention5])
  | some (.num _), h => absurd h (by simp [isPrevention5])
  | some (.str _), h => absurd h (by simp [isPrevention5])
  | some (.obj _), h => absurd h (by simp [isPrevention5])

/-- Claim C1: a request whose body has a missing or empty `disease` field is
answered with status 400 and body exactly the object with the single field
`error` holding "Disease name is required.", and the external generation
capability is never invoked. -/
theorem c1_missing_or_empty_disease_rejected (env : ExternalEnv)
    (reqBody : List (String × JSVal))
    (h : lookupField reqBody "disease" = none ∨
         lookupField reqBody "disease" = some (JSVal.str "")) :
    (apiTreatmentHandler env reqBody).response =
      { status := 400, body := [("error", JSVal.str "Disease name is required.")] } ∧
    (apiTreatmentHandler env reqBody).genCall = none := by
  have hfalsy : (requestDisease reqBody).isTruthy = false := by
    rcases h with h | h <;> rw [requestDisease, h] <;> rfl
  rw [apiTreatmentHandler_invalid env reqBody hfalsy]
  exact ⟨rfl, rfl⟩

/-- Witness for C1 at a concrete request with no `disease` field. -/
theorem c1_missing_or_empty_disease_rejected_witness :
    (apiTreatmentHandler
        { genResult := .rejected "network down", jsonParse := fun _ => .error "x" }
        []).response =
      { status := 400, body := [("error", JSVal.str "Disease name is required.")] } ∧
    (apiTreatmentHandler
        { genResult := .rejected "network down", jsonParse := fun _ => .error "x" }
        []).genCall = none :=
  c1_missing_or_empty_disease_rejected _ [] (Or.inl rfl)

/-- A request body carrying a non-empty disease name. -/
def mildewBody : List (String × JSVal) := [("disease", JSVal.str "Powdery Mildew")]

/-- A resolved response whose first candidate carries the text "payload". -/
def payloadResp : GenResponse :=
  { candidates := [{ content := some { parts := [{ text := some "payload" }] },
                     safetyRatings := [] }] }

/-- A resolved response with no candidates at all. -/
def emptyResp : GenResponse := { candidates := [] }

/-- An environment whose external call rejects. -/
def rejectEnv : ExternalEnv :=
  { genResult := .rejected "network down", jsonParse := fun _ => .error "x" }

/-- A schema-conformant TreatmentResult value. -/
def goodTreatment : JSVal :=
  .obj [("organic", .str "Use neem oil weekly."),
        ("biological", .str "Introduce ladybugs."),
        ("chemical", .str "Apply sulfur spray."),
        ("prevention", .arr [.str "p1", .str "p2", .str "p3", .str "p4", .str "p5"])]

/-- An environment whose external call resolves with text parsing to a
conformant TreatmentResult. -/
def conformantEnv : ExternalEnv :=
  { genResult := .resolved payloadResp, jsonParse := fun _ => .ok goodTreatment }

/-- An environment whose external call resolves with text on which
JSON.parse throws. -/
def badJsonEnv : ExternalEnv :=
  { genResult := .resolved payloadResp,
    jsonParse := fun _ => .error "Unexpected token p in JSON at position 0" }

/-- An environment whose external call resolves with no text part. -/
def noTextEnv : ExternalEnv :=
  { genResult := .resolved emptyResp, jsonParse := fun _ => .error "x" }

/-- Claim C2: when the disease is non-empty and the external capability
returns a first candidate whose first content part holds a (non-empty)
conformant JSON payload, the handler answers 200 with body
(disease, data), where data has all four required keys and a
prevention array of exactly five strings. -/
theorem c2_conformant_payload_success (env : ExternalEnv)
    (reqBody : List (String × JSVal)) (resp : GenResponse) (s : String) (v : JSVal)
    (hd : (requestDisease reqBody).isTruthy = true)
    (hg : env.genResult = GenOutcome.resolved resp)
    (ht : extractJsonString resp = some s)
    (hne : s.isEmpty = false)
    (hp : env.jsonParse s = Except.ok v)
    (hc : conformantTreatment v = true) :
    (apiTreatmentHandler env reqBody).response.status = 200 ∧
    (apiTreatmentHandler env reqBody).response.body =
      [("disease", requestDisease reqBody), ("data", v)] ∧
    (∃ s1, dataField v "organic" = some (JSVal.str s1)) ∧
    (∃ s2, dataField v "biological" = some (JSVal.str s2)) ∧
    (∃ s3, dataField v "chemical" = some (JSVal.str s3)) ∧
    ∃ elems, dataField v "prevention" = some (JSVal.arr elems) ∧
      elems.length = 5 ∧ ∀ x ∈ elems, isStringVal x = true := by
  simp only [conformantTreatment, Bool.and_eq_true] at hc
  obtain ⟨⟨⟨h1, h2⟩, h3⟩, h4⟩ := hc
  rw [apiTreatmentHandler_success env reqBody resp s v hd hg ht hne hp]
  exact ⟨rfl, rfl, isStringField_spec _ h1, isStringField_spec _ h2,
    isStringField_spec _ h3, isPrevention5_spec _ h4⟩

/-- Witness for C2 at the concrete conformant environment. -/
theorem c2_conformant_payload_success_witness :
    (apiTreatmentHandler conformantEnv mildewBody).response.status = 200 ∧
    (apiTreatmentHandler conformantEnv mildewBody).response.body =
      [("disease", requestDisease mildewBody), ("data", goodTreatment)] ∧
    (∃ s1, dataField goodTreatment "organic" = some (JSVal.str s1)) ∧
    (∃ s2, dataField goodTreatment "biological" = some (JSVal.str s2)) ∧
    (∃ s3, dataField goodTreatment "chemical" = some (JSVal.str s3)) ∧
    ∃ elems, dataField goodTreatment "prevention" = some (JSVal.arr elems) ∧
      elems.length = 5 ∧ ∀ x ∈ elems, isStringVal x = true :=
  c2_conformant_payload_success conformantEnv mildewBody payloadResp "payload"
    goodTreatment rfl rfl rfl rfl rfl rfl

/-- Claim C3: when the disease is non-empty and the resolved external
response carries no text in the first content part of the first candidate,
the handler answers 500 with the details string chosen by the safety-block
read: the blocked message when the flag is set, the empty-response message
otherwise. -/
theorem c3_no_text_500_details (env : ExternalEnv)
    (reqBody : List (String × JSVal)) (resp : GenResponse)
    (hd : (requestDisease reqBody).isTruthy = true)
    (hg : env.genResult = GenOutcome.resolved resp)
    (ht : jsonStringFalsy (extractJsonString resp) = true) :
    (apiTreatmentHandler env reqBody).response.status = 500 ∧
    (safetyBlockedFlag resp.candidates.head? = true →
      lookupField (apiTreatmentHandler env reqBody).response.body "details" =
        some (JSVal.str "Response blocked by safety settings.")) ∧
    (safetyBlockedFlag resp.candidates.head? = false →
      lookupField (apiTreatmentHandler env reqBody).response.body "details" =
        some (JSVal.str "Empty response or no text part found.")) := by
  rw [apiTreatmentHandler_noText env reqBody resp hd hg ht]
  refine ⟨rfl, ?_, ?_⟩
  · intro hb
    rw [noTextResult, hb]
    rfl
  · intro hb
    rw [noTextResult, hb]
    rfl

/-- Witness for C3 at a resolved response with no candidates (text absent,
safety flag unset). -/
theorem c3_no_text_500_details_witness :
    (apiTreatmentHandler noTextEnv mildewBody).response.status = 500 ∧
    (safetyBlockedFlag emptyResp.candidates.head? = true →
      lookupField (apiTreatmentHandler noTextEnv mildewBody).response.body "details" =
        some (JSVal.str "Response blocked by safety settings.")) ∧
    (safetyBlockedFlag emptyResp.candidates.head? = false →
      lookupField (apiTreatmentHandler noTextEnv mildewBody).response.body "details" =
        some (JSVal.str "Empty response or no text part found.")) :=
  c3_no_text_500_details noTextEnv mildewBody emptyResp rfl rfl rfl

/-- Claim C4: when the disease is non-empty and the external call rejects
with an error, the handler answers 500 and the details field of the JSON
body is exactly the message of that error. -/
theorem c4_rejection_500_details (env : ExternalEnv)
    (reqBody : List (String × JSVal)) (message : String)
    (hd : (requestDisease reqBody).isTruthy = true)
    (hg : env.genResult = GenOutcome.rejected message) :
    (apiTreatmentHandler env reqBody).response.status = 500 ∧
    lookupField (apiTreatmentHandler env reqBody).response.body "details" =
      some (JSVal.str message) := by
  rw [apiTreatmentHandler_rejected env reqBody message hd hg]
  exact ⟨rfl, rfl⟩

/-- Witness for C4 at the concrete rejecting environment. -/
theorem c4_rejection_500_details_witness :
    (apiTreatmentHandler rejectEnv mildewBody).response.status = 500 ∧
    lookupField (apiTreatmentHandler rejectEnv mildewBody).response.body "details" =
      some (JSVal.str "network down") :=
  c4_rejection_500_details rejectEnv mildewBody "network down" rfl rfl

/-- Claim C5: when the disease is non-empty, the external call resolves
with a non-empty text payload, and JSON.parse throws on that payload, the
handler answers 500 with the error field naming a processing failure (and
the details field carrying the parse-error message). -/
theorem c5_invalid_json_500 (env : ExternalEnv)
    (reqBody : List (String × JSVal)) (resp : GenResponse) (s message : String)
    (hd : (requestDisease reqBody).isTruthy = true)
    (hg : env.genResult = GenOutcome.resolved resp)
    (ht : extractJsonString resp = some s)
    (hne : s.isEmpty = false)
    (hp : env.jsonParse s = Except.error message) :
    (apiTreatmentHandler env reqBody).response.status = 500 ∧
    lookupField (apiTreatmentHandler env reqBody).response.body "error" =
      some (JSVal.str "Failed to process request due to an internal API error.") ∧
    lookupField (apiTreatmentHandler env reqBody).response.body "details" =
      some (JSVal.str message) := by
  rw [apiTreatmentHandler_parseFail env reqBody resp s message hd hg ht hne hp]
  exact ⟨rfl, rfl, rfl⟩

/-- Witness for C5 at the concrete environment with a non-JSON payload. -/
theorem c5_invalid_json_500_witness :
    (apiTreatmentHandler badJsonEnv mildewBody).response.status = 500 ∧
    lookupField (apiTreatmentHandler badJsonEnv mildewBody).response.body "error" =
      some (JSVal.str "Failed to process request due to an internal API error.") ∧
    lookupField (apiTreatmentHandler badJsonEnv mildewBody).response.body "details" =
      some (JSVal.str "Unexpected token p in JSON at position 0") :=
  c5_invalid_json_500 badJsonEnv mildewBody payloadResp "payload"
    "Unexpected token p in JSON at position 0" rfl rfl rfl rfl rfl

/-- An environment whose external call resolves with text parsing to the
empty JSON object (valid JSON, but not a conformant TreatmentResult). -/
def emptyObjectParseEnv : ExternalEnv :=
  { genResult := .resolved payloadResp, jsonParse := fun _ => .ok (JSVal.obj []) }

/-- Claim C6 counterexample: the handler performs no schema validation after
JSON.parse, so when the external payload is valid JSON but not conformant
(here the empty object), the handler still answers 200 and returns the
non-conformant value as `data`, contradicting the claim that every 200
`data` has all four fields with a five-string prevention array. -/
theorem c6_nonconformant_200_counterexample :
    (apiTreatmentHandler emptyObjectParseEnv mildewBody).response.status = 200 ∧
    lookupField (apiTreatmentHandler emptyObjectParseEnv mildewBody).response.body
      "data" = some (JSVal.obj []) ∧
    conformantTreatment (JSVal.obj []) = false :=
  ⟨rfl, rfl, rfl⟩

/-- Claim C6 as amended: every 200 response is built only from a payload on
which JSON.parse succeeded — the parsed value is forwarded as `data`
unchanged — but no conformance check is performed, so `data` is conformant
only when the external payload is. -/
theorem c6_amended_data_from_parse (env : ExternalEnv)
    (reqBody : List (String × JSVal))
    (h200 : (apiTreatmentHandler env reqBody).response.status = 200) :
    ∃ resp s v, env.genResult = GenOutcome.resolved resp ∧
      extractJsonString resp = some s ∧ s.isEmpty = false ∧
      env.jsonParse s = Except.ok v ∧
      (apiTreatmentHandler env reqBody).response.body =
        [("disease", requestDisease reqBody), ("data", v)] := by
  rcases apiTreatmentHandler_run env reqBody with ⟨_, hrun⟩ | ⟨_, hcase⟩
  · rw [hrun] at h200
    simp [invalidInputResult] at h200
  · rcases hcase with ⟨m, _, hrun⟩ | ⟨resp, _, _, hrun⟩ |
      ⟨resp, s, m, _, _, _, _, hrun⟩ | ⟨resp, s, v, hg, ht, hne, hp, hrun⟩
    · rw [hrun] at h200
      simp [rejectedResult] at h200
    · rw [hrun] at h200
      simp [noTextResult] at h200
    · rw [hrun] at h200
      simp [parseFailResult] at h200
    · exact ⟨resp, s, v, hg, ht, hne, hp, by rw [hrun]; rfl⟩

/-- Witness for the amended C6 at the conformant environment. -/
theorem c6_amended_data_from_parse_witness :
    ∃ resp s v, conformantEnv.genResult = GenOutcome.resolved resp ∧
      extractJsonString resp = some s ∧ s.isEmpty = false ∧
      conformantEnv.jsonParse s = Except.ok v ∧
      (apiTreatmentHandler conformantEnv mildewBody).response.body =
        [("disease", requestDisease mildewBody), ("data", v)] :=
  c6_amended_data_from_parse conformantEnv mildewBody rfl

/-- A value accepted by `treatmentSchema` whose prevention array has only
three entries. -/
def shortPreventionVal : JSVal :=
  .obj [("organic", .str "a"), ("biological", .str "b"), ("chemical", .str "c"),
        ("prevention", .arr [.str "p1", .str "p2", .str "p3"])]

/-- Claim C7 counterexample: the response schema does NOT constrain the
prevention array to five items — the five-distinct-measures wording lives
only in the description, which constrains nothing — so a value whose
prevention array has three entries is accepted by the schema. -/
theorem c7_schema_counterexample :
    ¬ (∀ v elems, schemaAccepts treatmentSchema v = true →
        dataField v "prevention" = some (JSVal.arr elems) → elems.length = 5) := by
  intro hclaim
  have h3 := hclaim shortPreventionVal
    [JSVal.str "p1", JSVal.str "p2", JSVal.str "p3"] rfl rfl
  exact absurd h3 (by decide)

/-- Claim C7 as amended: every request passing input validation issues a
generation request with the fixed model identifier, temperature 0.3, JSON
response mime type, and a response schema requiring all four fields, whose
prevention property is typed as an array of string items and merely
describes (without enforcing) five distinct measures. -/
theorem c7_amended_request_shape (env : ExternalEnv)
    (reqBody : List (String × JSVal))
    (hd : (requestDisease reqBody).isTruthy = true) :
    ∃ genRequest, (apiTreatmentHandler env reqBody).genCall = some genRequest ∧
      genRequest.model = "gemini-2.5-flash" ∧
      genRequest.config.temperature = (0.3 : ℚ) ∧
      genRequest.config.responseMimeType = "application/json" ∧
      genRequest.config.responseSchema = treatmentSchema ∧
      schemaRequired genRequest.config.responseSchema =
        ["organic", "biological", "chemical", "prevention"] ∧
      findProp (schemaProperties genRequest.config.responseSchema) "prevention" =
        some (Schema.arrSchema (some "A list of five distinct prevention measures.")
          (Schema.strSchema none)) := by
  rcases apiTreatmentHandler_run env reqBody with ⟨hd0, _⟩ | ⟨_, hcase⟩
  · rw [hd] at hd0
    exact absurd hd0 (by decide)
  · refine ⟨treatmentGenRequest reqBody, ?_, rfl, rfl, rfl, rfl, rfl, rfl⟩
    rcases hcase with ⟨m, _, hrun⟩ | ⟨resp, _, _, hrun⟩ |
      ⟨resp, s, m, _, _, _, _, hrun⟩ | ⟨resp, s, v, _, _, _, _, hrun⟩ <;>
      rw [hrun] <;> rfl

/-- Witness for the amended C7 at a concrete validated request. -/
theorem c7_amended_request_shape_witness :
    ∃ genRequest,
      (apiTreatmentHandler rejectEnv mildewBody).genCall = some genRequest ∧
      genRequest.model = "gemini-2.5-flash" ∧
      genRequest.config.temperature = (0.3 : ℚ) ∧
      genRequest.config.responseMimeType = "application/json" ∧
      genRequest.config.responseSchema = treatmentSchema ∧
      schemaRequired genRequest.config.responseSchema =
        ["organic", "biological", "chemical", "prevention"] ∧
      findProp (schemaProperties genRequest.config.responseSchema) "prevention" =
        some (Schema.arrSchema (some "A list of five distinct prevention measures.")
          (Schema.strSchema none)) :=
  c7_amended_request_shape rejectEnv mildewBody rfl

/-- Claim C8: every handler run produces exactly one response (the embedding
is a total function to a single response record), its status is 400, 200 or
500, its body is a JSON object, and every non-200 body carries a
human-readable error string. -/
theorem c8_single_json_response (env : ExternalEnv)
    (reqBody : List (String × JSVal)) :
    ((apiTreatmentHandler env reqBody).response.status = 400 ∨
     (apiTreatmentHandler env reqBody).response.status = 200 ∨
     (apiTreatmentHandler env reqBody).response.status = 500) ∧
    ((apiTreatmentHandler env reqBody).response.status ≠ 200 →
      ∃ m, lookupField (apiTreatmentHandler env reqBody).response.body "error" =
        some (JSVal.str m)) := by
  rcases apiTreatmentHandler_run env reqBody with ⟨_, hrun⟩ | ⟨_, hcase⟩
  · rw [hrun]
    exact ⟨Or.inl rfl, fun _ => ⟨"Disease name is required.", rfl⟩⟩
  · rcases hcase with ⟨m, _, hrun⟩ | ⟨resp, _, _, hrun⟩ |
      ⟨resp, s, m, _, _, _, _, hrun⟩ | ⟨resp, s, v, _, _, _, _, hrun⟩
    · rw [hrun]
      exact ⟨Or.inr (Or.inr rfl),
        fun _ => ⟨"Failed to process request due to an internal API error.", rfl⟩⟩
    · rw [hrun]
      exact ⟨Or.inr (Or.inr rfl),
        fun _ => ⟨"Failed to generate treatment data.", rfl⟩⟩
    · rw [hrun]
      exact ⟨Or.inr (Or.inr rfl),
        fun _ => ⟨"Failed to process request due to an internal API error.", rfl⟩⟩
    · rw [hrun]
      exact ⟨Or.inr (Or.inl rfl), fun h => absurd rfl h⟩

/-- Witness for C8 at a concrete run. -/
theorem c8_single_json_response_witness :
    ((apiTreatmentHandler rejectEnv []).response.status = 400 ∨
     (apiTreatmentHandler rejectEnv []).response.status = 200 ∨
     (apiTreatmentHandler rejectEnv []).response.status = 500) ∧
    ((apiTreatmentHandler rejectEnv []).response.status ≠ 200 →
      ∃ m, lookupField (apiTreatmentHandler rejectEnv []).response.body "error" =
        some (JSVal.str m)) :=
  c8_single_json_response rejectEnv []

/-- Claim C9 counterexample: the invalid-input 400 outcome is a failure
outcome, yet the handler emits no log line at all on that path — the
validation check returns before any `console` call. -/
theorem c9_silent_400_counterexample :
    (apiTreatmentHandler rejectEnv []).response.status = 400 ∧
    (apiTreatmentHandler rejectEnv []).logs = [] :=
  ⟨rfl, rfl⟩

/-- Claim C9 as amended: the handler logs exactly one line naming the
disease on success and exactly one error line carrying the failure detail on
either 500 outcome, but logs nothing on the invalid-input 400 path; beside
the external call and the single response, the logs are its only side
effects. -/
theorem c9_amended_logging (env : ExternalEnv)
    (reqBody : List (String × JSVal)) :
    ((apiTreatmentHandler env reqBody).response.status = 400 →
      (apiTreatmentHandler env reqBody).logs = []) ∧
    ((apiTreatmentHandler env reqBody).response.status = 200 →
      (apiTreatmentHandler env reqBody).logs =
        [LogEvent.consoleLog ("Successfully generated structured data for \"" ++
          jsToString (requestDisease reqBody) ++ "\"")]) ∧
    ((apiTreatmentHandler env reqBody).response.status = 500 →
      ∃ tag detail,
        (apiTreatmentHandler env reqBody).logs = [LogEvent.consoleError tag detail] ∧
        lookupField (apiTreatmentHandler env reqBody).response.body "details" =
          some (JSVal.str detail)) := by
  rcases apiTreatmentHandler_run env reqBody with ⟨_, hrun⟩ | ⟨_, hcase⟩
  · rw [hrun]
    refine ⟨fun _ => rfl, fun h => ?_, fun h => ?_⟩ <;>
      simp [invalidInputResult] at h
  · rcases hcase with ⟨m, _, hrun⟩ | ⟨resp, _, _, hrun⟩ |
      ⟨resp, s, m, _, _, _, _, hrun⟩ | ⟨resp, s, v, _, _, _, _, hrun⟩
    · rw [hrun]
      refine ⟨fun h => ?_, fun h => ?_, fun _ =>
        ⟨"Gemini API Internal Error:", m, rfl, rfl⟩⟩ <;>
        simp [rejectedResult] at h
    · rw [hrun]
      refine ⟨fun h => ?_, fun h => ?_, fun _ =>
        ⟨"Gemini API Error:",
         if safetyBlockedFlag resp.candidates.head? then
           "Response blocked by safety settings."
         else "Empty response or no text part found.", rfl, rfl⟩⟩ <;>
        simp [noTextResult] at h
    · rw [hrun]
      refine ⟨fun h => ?_, fun h => ?_, fun _ =>
        ⟨"Gemini API Internal Error:", m, rfl, rfl⟩⟩ <;>
        simp [parseFailResult] at h
    · rw [hrun]
      refine ⟨fun h => ?_, fun _ => rfl, fun h => ?_⟩ <;>
        simp [successResult] at h

/-- Witness for the amended C9 at a concrete successful run. -/
theorem c9_amended_logging_witness :
    ((apiTreatmentHandler conformantEnv mildewBody).response.status = 400 →
      (apiTreatmentHandler conformantEnv mildewBody).logs = []) ∧
    ((apiTreatmentHandler conformantEnv mildewBody).response.status = 200 →
      (apiTreatmentHandler conformantEnv mildewBody).logs =
        [LogEvent.consoleLog ("Successfully generated structured data for \"" ++
          jsToString (requestDisease mildewBody) ++ "\"")]) ∧
    ((apiTreatmentHandler conformantEnv mildewBody).response.status = 500 →
      ∃ tag detail,
        (apiTreatmentHandler conformantEnv mildewBody).logs =
          [LogEvent.consoleError tag detail] ∧
        lookupField (apiTreatmentHandler conformantEnv mildewBody).response.body
          "details" = some (JSVal.str detail)) :=
  c9_amended_logging conformantEnv mildewBody

/-- A request body whose disease field is a (truthy) number. -/
def numBody : List (String × JSVal) := [("disease", JSVal.num 7)]

/-- Claim C10: the 400 rejection happens exactly when the `disease` field is
falsy — empty string, 0, false, null and absent (undefined) are all falsy —
while any truthy value, string or not, passes validation and its JavaScript
string conversion is embedded into the prompt sent to the external
capability. -/
theorem c10_falsy_gate (env : ExternalEnv) (reqBody : List (String × JSVal)) :
    ((apiTreatmentHandler env reqBody).response.status = 400 ↔
      (requestDisease reqBody).isTruthy = false) ∧
    ((requestDisease reqBody).isTruthy = true →
      ∃ genRequest, (apiTreatmentHandler env reqBody).genCall = some genRequest ∧
        genRequest.contents =
          promptHead ++ jsToString (requestDisease reqBody) ++ promptTail) ∧
    JSVal.isTruthy (JSVal.str "") = false ∧
    JSVal.isTruthy (JSVal.num 0) = false ∧
    JSVal.isTruthy (JSVal.bool false) = false ∧
    JSVal.isTruthy JSVal.null = false ∧
    JSVal.isTruthy JSVal.undef = false ∧
    JSVal.isTruthy (JSVal.num 7) = true ∧
    JSVal.isTruthy (JSVal.obj []) = true := by
  refine ⟨⟨?_, ?_⟩, ?_, rfl, rfl, rfl, rfl, rfl, rfl, rfl⟩
  · intro h400
    rcases apiTreatmentHandler_run env reqBody with ⟨hd, _⟩ | ⟨_, hcase⟩
    · exact hd
    · exfalso
      rcases hcase with ⟨m, _, hrun⟩ | ⟨resp, _, _, hrun⟩ |
        ⟨resp, s, m, _, _, _, _, hrun⟩ | ⟨resp, s, v, _, _, _, _, hrun⟩ <;>
        rw [hrun] at h400 <;>
        simp [rejectedResult, noTextResult, parseFailResult, successResult] at h400
  · intro hd
    rw [apiTreatmentHandler_invalid env reqBody hd]
    rfl
  · intro hd
    rcases apiTreatmentHandler_run env reqBody with ⟨hd0, _⟩ | ⟨_, hcase⟩
    · rw [hd] at hd0
      exact absurd hd0 (by decide)
    · refine ⟨treatmentGenRequest reqBody, ?_, rfl⟩
      rcases hcase with ⟨m, _, hrun⟩ | ⟨resp, _, _, hrun⟩ |
        ⟨resp, s, m, _, _, _, _, hrun⟩ | ⟨resp, s, v, _, _, _, _, hrun⟩ <;>
        rw [hrun] <;> rfl

/-- Witness for C10 at a concrete request carrying a numeric disease. -/
theorem c10_falsy_gate_witness :
    ((apiTreatmentHandler rejectEnv numBody).response.status = 400 ↔
      (requestDisease numBody).isTruthy = false) ∧
    ((requestDisease numBody).isTruthy = true →
      ∃ genRequest, (apiTreatmentHandler rejectEnv numBody).genCall = some genRequest ∧
        genRequest.contents =
          promptHead ++ jsToString (requestDisease numBody) ++ promptTail) ∧
    JSVal.isTruthy (JSVal.str "") = false ∧
    JSVal.isTruthy (JSVal.num 0) = false ∧
    JSVal.isTruthy (JSVal.bool false) = false ∧
    JSVal.isTruthy JSVal.null = false ∧
    JSVal.isTruthy JSVal.undef = false ∧
    JSVal.isTruthy (JSVal.num 7) = true ∧
    JSVal.isTruthy (JSVal.obj []) = true :=
  c10_falsy_gate rejectEnv numBody
